import Mathlib

/-!
Shallow embedding of the weather data-acquisition layer of `weather.py`
(classes `Location`, `Day`, `TemperatureUnit`, `WeatherEffectiveness`,
`Weather`, `WeatherProvider`, `CachedWeatherProvider`,
`DirectWeatherProvider`, `CaiYunWeatherProvider`), together with theorems
settling the behavioural claims about the cache policy, the payload
parser and the sky-condition classifier.

Modelling conventions:
- Python floats (times, temperatures, pressures, TTL) are embedded as `ℚ`.
- Timestamps carried inside `Weather.time` are abstracted as the ISO
  strings they were parsed from (`datetime.fromisoformat` is not itself
  the subject of any claim); the wall clock reading used by
  `CachedWeatherProvider.get_weather` is an explicit `now : ℚ` argument.
- Exceptions are embedded as `Except` values; the JSON decoding of
  `response.text` into the `result.realtime` / `result.hourly` /
  `result.daily` sections is abstracted as an `Except`-valued `body`
  field of the response, consumed only after the `response.ok` check,
  exactly as in the source.
- `str.lower` is modelled character-wise on ASCII letters, which covers
  every sky-condition code the classifier inspects.
-/

set_option maxHeartbeats 1000000

namespace Epui

/-- Sky-condition categories: the `Day` enum of `weather.py`. -/
inductive Day where
  | CLEAR
  | CLOUDY
  | LIGHTLY_RAINY
  | RAINY
  | HEAVILY_RAINY
  | SNOWY_RAINY
  | LIGHTLY_SNOWY
  | SNOWY
  | HEAVILY_SNOWY
  | HAZY
  | FOGGY
  | DUSTY
  | SANDY
  | WINDY
  | UNKNOWN
deriving DecidableEq, Repr

/-- Temperature units: the `TemperatureUnit` enum of `weather.py`. -/
inductive TemperatureUnit where
  | CELSIUS
  | FAHRENHEIT
  | KELVIN
deriving DecidableEq, Repr

/-- Temporal role of a record: the `WeatherEffectiveness` enum of `weather.py`. -/
inductive WeatherEffectiveness where
  | CURRENT
  | HOURLY
  | DAILY
  | ANY
deriving DecidableEq, Repr

/-- Geographic query point: the `Location` class of `weather.py`. -/
structure Location where
  latitude : ℚ
  longitude : ℚ
  friendly_name : Option String
deriving DecidableEq

/-- One weather observation: the `Weather` class of `weather.py`.
The `time` field keeps the raw timestamp string (see module comment). -/
structure Weather where
  time : String
  effect : WeatherEffectiveness
  day : Day
  temperature : ℚ
  humidity : ℚ
  pressure : ℚ
  uv_index : ℤ
deriving DecidableEq

/-- ASCII lower-casing of one character, modelling `str.lower` on the
characters that occur in sky-condition codes. -/
def lowerChar (c : Char) : Char :=
  if 'A' ≤ c ∧ c ≤ 'Z' then Char.ofNat (c.toNat + 32) else c

/-- ASCII lower-casing of a string, modelling `raw.lower()`. -/
def lowerStr (s : String) : String :=
  ⟨s.data.map lowerChar⟩

/-- Does `needle` occur at the very start of `hay`? (helper for the
substring test). -/
def charsAt : List Char → List Char → Bool
  | [], _ => true
  | _ :: _, [] => false
  | a :: as, b :: bs => a = b && charsAt as bs

/-- Does `needle` occur contiguously anywhere inside `hay`? -/
def charsWithin (needle : List Char) : List Char → Bool
  | [] => needle.isEmpty
  | b :: bs => charsAt needle (b :: bs) || charsWithin needle bs

/-- Python's `needle in hay` substring test on strings. -/
def strContainsSub (hay needle : String) : Bool :=
  charsWithin needle.data hay.data

/-- The branch chain of `CaiYunWeatherProvider.__caiyun_get_day` applied
to the already lower-cased code: three substring tests first, then the
exact-match chain, with `UNKNOWN` as the final fallback. -/
def caiyun_classify (raw : String) : Day :=
  if strContainsSub raw "clear" then Day.CLEAR
  else if strContainsSub raw "cloudy" then Day.CLOUDY
  else if strContainsSub raw "haze" then Day.HAZY
  else if raw = "light_rain" then Day.LIGHTLY_RAINY
  else if raw = "moderate_rain" then Day.RAINY
  else if raw = "heavy_rain" ∨ raw = "storm_rain" then Day.HEAVILY_RAINY
  else if raw = "fog" then Day.FOGGY
  else if raw = "light_snow" then Day.LIGHTLY_SNOWY
  else if raw = "moderate_snow" then Day.SNOWY
  else if raw = "heavy_snow" ∨ raw = "storm_snow" then Day.HEAVILY_SNOWY
  else if raw = "dust" then Day.DUSTY
  else if raw = "sand" then Day.SANDY
  else if raw = "wind" then Day.WINDY
  else Day.UNKNOWN

/-- `CaiYunWeatherProvider.__caiyun_get_day`: the source first reassigns
`raw = raw.lower()` and then runs the branch chain `caiyun_classify`. -/
def caiyun_get_day (raw : String) : Day :=
  caiyun_classify (lowerStr raw)

/-- Errors raised inside `CaiYunWeatherProvider.invalidate`:
`upstreamUnavailable` is the `IOError` on a non-OK response,
`malformedPayload` stands for a JSON/`KeyError` failure while extracting
the three result sections, `malformedMetric` is the `ValueError(unit)`
raised by `pick`, `malformedTime` the `ValueError(precipitation)` raised
when an entry has neither `datetime` nor `date`, and `indexError` the
`IndexError` of the parallel-array indexing. -/
inductive CaiYunError where
  | upstreamUnavailable
  | malformedPayload
  | malformedMetric
  | malformedTime
  | indexError
deriving DecidableEq, Repr

instance {ε α : Type} [DecidableEq ε] [DecidableEq α] : DecidableEq (Except ε α) := fun
  | .ok a, .ok b =>
    if h : a = b then .isTrue (by rw [h]) else .isFalse (by simp [h])
  | .ok _, .error _ => .isFalse (by simp)
  | .error _, .ok _ => .isFalse (by simp)
  | .error e, .error f =>
    if h : e = f then .isTrue (by rw [h]) else .isFalse (by simp [h])

/-- Mutable state of a `CachedWeatherProvider`: the configured TTL
`cache_invalidation`, the private `__update_time` and the private
`__cache` (both `None` until touched). -/
structure CachedState where
  cache_invalidation : ℚ
  update_time : Option ℚ
  cache : Option (List Weather)
deriving DecidableEq

/-- Outcome of one `CachedWeatherProvider.get_weather` call: the value
returned (or exception propagated), the state of the provider after the
call, and how many times the `invalidate` hook was invoked (0 or 1).
Note the returned value is an `Option`: Python returns `self.__cache`,
which is still `None` when no refresh has ever succeeded. -/
structure StepResult where
  result : Except CaiYunError (Option (List Weather))
  state : CachedState
  upstream_calls : ℕ
deriving DecidableEq

/-- The miss path of `CachedWeatherProvider.get_weather`: the source
stores `self.__update_time = time.time()` first, then calls
`self.invalidate()` (whose outcome this call receives as `refreshed`),
and only on success stores `self.__cache = new_data`. -/
def CachedWeatherProvider.fetch (s : CachedState) (now : ℚ)
    (refreshed : Except CaiYunError (List Weather)) : StepResult :=
  match refreshed with
  | .error e => ⟨.error e, { s with update_time := some now }, 1⟩
  | .ok new_data =>
    ⟨.ok (some new_data), { s with update_time := some now, cache := some new_data }, 1⟩

/-- `CachedWeatherProvider.get_weather`: serve the cache while
`__update_time` is set and `now - __update_time < cache_invalidation`,
otherwise run the miss path `fetch`. -/
def CachedWeatherProvider.get_weather (s : CachedState) (now : ℚ)
    (refreshed : Except CaiYunError (List Weather)) : StepResult :=
  match s.update_time with
  | some t =>
    if now - t < s.cache_invalidation then ⟨.ok s.cache, s, 0⟩
    else CachedWeatherProvider.fetch s now refreshed
  | none => CachedWeatherProvider.fetch s now refreshed

/-- Base provider state: the private `__location` and
`__temperature_unit` of the `WeatherProvider` class. -/
structure WeatherProvider where
  location : Location
  temperature_unit : TemperatureUnit
deriving DecidableEq

/-- `WeatherProvider.get_location`. -/
def WeatherProvider.get_location (p : WeatherProvider) : Location :=
  p.location

/-- `WeatherProvider.get_temperature_unit`. -/
def WeatherProvider.get_temperature_unit (p : WeatherProvider) : TemperatureUnit :=
  p.temperature_unit

/-- The `DirectWeatherProvider` class: a constant single-record provider. -/
structure DirectWeatherProvider where
  weather : Weather
  base : WeatherProvider
deriving DecidableEq

/-- `DirectWeatherProvider.__init__`: stores the record and passes
`TemperatureUnit.CELSIUS` to the base constructor (the default location
is `Location(0, 0, 'Test Land')`). -/
def DirectWeatherProvider.init (weather : Weather)
    (location : Location := ⟨0, 0, some "Test Land"⟩) : DirectWeatherProvider :=
  ⟨weather, ⟨location, TemperatureUnit.CELSIUS⟩⟩

/-- `DirectWeatherProvider.get_weather`: always `[self.__weather]`. -/
def DirectWeatherProvider.get_weather (p : DirectWeatherProvider) : List Weather :=
  [p.weather]

/-- One entry of an hourly/daily metric array, as seen by `pick`: the
optional `value` and `avg` keys (presence of a key is `some`). -/
structure Entry (α : Type) where
  value : Option α
  avg : Option α
deriving DecidableEq

/-- The inner `pick` of `CaiYunWeatherProvider.invalidate`: return the
`value` field when the key is present, else the `avg` field, else raise
`ValueError(unit)` (embedded as `malformedMetric`). -/
def pick {α : Type} (unit : Entry α) : Except CaiYunError α :=
  match unit.value with
  | some v => .ok v
  | none =>
    match unit.avg with
    | some a => .ok a
    | none => .error .malformedMetric

/-- One entry of the `precipitation` array, which carries the timestamp
keys: hourly entries use `datetime`, daily entries use `date`. -/
structure PrecipEntry where
  datetime : Option String
  date : Option String
deriving DecidableEq

/-- Timestamp resolution of the parse loop: prefer the `datetime` key,
fall back to the `date` key, else raise `ValueError(precipitation)`.
The `datetime.fromisoformat(...)` conversion is abstracted: the record
keeps the chosen raw string. -/
def resolveTime (precipitation : PrecipEntry) : Except CaiYunError String :=
  match precipitation.datetime with
  | some s => .ok s
  | none =>
    match precipitation.date with
    | some s => .ok s
    | none => .error .malformedTime

/-- `source[...][i]` on a parallel array: Python raises `IndexError`
when the index is out of range. -/
def getIdx {α : Type} (l : List α) (i : ℕ) : Except CaiYunError α :=
  match l.get? i with
  | some x => .ok x
  | none => .error .indexError

/-- One hourly/daily section of the payload (`result['hourly']` or
`result['daily']`): five parallel arrays indexed by position. -/
structure SeriesPayload where
  precipitation : List PrecipEntry
  temperature : List (Entry ℚ)
  humidity : List (Entry ℚ)
  skycon : List (Entry String)
  pressure : List (Entry ℚ)
deriving DecidableEq

/-- Body of iteration `i` of the `parse` loop: resolve the timestamp
from `precipitation[i]`, then `pick` temperature, humidity, skycon and
pressure at the same index, classify the sky condition and build the
record with the `-1` UV sentinel. -/
def parseAt (source : SeriesPayload) (effect : WeatherEffectiveness) (i : ℕ) :
    Except CaiYunError Weather :=
  match getIdx source.precipitation i with
  | .error e => .error e
  | .ok precipitation =>
    match resolveTime precipitation with
    | .error e => .error e
    | .ok time =>
      match getIdx source.temperature i with
      | .error e => .error e
      | .ok tEntry =>
        match pick tEntry with
        | .error e => .error e
        | .ok temperature =>
          match getIdx source.humidity i with
          | .error e => .error e
          | .ok hEntry =>
            match pick hEntry with
            | .error e => .error e
            | .ok humidity =>
              match getIdx source.skycon i with
              | .error e => .error e
              | .ok sEntry =>
                match pick sEntry with
                | .error e => .error e
                | .ok sky_con =>
                  match getIdx source.pressure i with
                  | .error e => .error e
                  | .ok pEntry =>
                    match pick pEntry with
                    | .error e => .error e
                    | .ok pressure =>
                      .ok ⟨time, effect, caiyun_get_day sky_con,
                           temperature, humidity, pressure, -1⟩

/-- Run `f` on every index in order, collecting the records; the first
exception aborts the loop and propagates (the `for i in range(...)`
loop of `parse`). -/
def exceptSeq (f : ℕ → Except CaiYunError Weather) :
    List ℕ → Except CaiYunError (List Weather)
  | [] => .ok []
  | i :: is =>
    match f i with
    | .error e => .error e
    | .ok w =>
      match exceptSeq f is with
      | .error e => .error e
      | .ok ws => .ok (w :: ws)

/-- The inner `parse` of `CaiYunWeatherProvider.invalidate`: iterate
`i` over `range(len(source['precipitation']))`, appending one record per
index. -/
def parse (source : SeriesPayload) (effect : WeatherEffectiveness) :
    Except CaiYunError (List Weather) :=
  exceptSeq (parseAt source effect) (List.range source.precipitation.length)

/-- The fields of `result['realtime']` read by `invalidate`; the nested
`life_index.ultraviolet.index` value is flattened into
`ultraviolet_index`. -/
structure RealtimeResult where
  temperature : ℚ
  skycon : String
  humidity : ℚ
  pressure : ℚ
  ultraviolet_index : ℚ
deriving DecidableEq

/-- The three sections extracted from the decoded JSON callback. -/
structure ApiBody where
  realtime : RealtimeResult
  hourly : SeriesPayload
  daily : SeriesPayload
deriving DecidableEq

/-- The HTTP response seen by `invalidate`: the `ok` flag, and the
outcome of decoding `response.text` and extracting the three `result`
sections (an error models a JSON/`KeyError` failure; it is consumed
only after the `ok` check, as in the source). -/
structure ApiResponse where
  ok : Bool
  body : Except CaiYunError ApiBody
deriving DecidableEq

/-- Python's `int(...)` on a numeric value: truncation toward zero. -/
def pyInt (q : ℚ) : ℤ :=
  if 0 ≤ q then ⌊q⌋ else ⌈q⌉

/-- The `current_weather` record built by `invalidate` from the realtime
section: `time` is the invocation time (`pytime.localtime()` abstracted
as the `now` argument), pressure is divided by 100, and the UV index is
`int(result_realtime['life_index']['ultraviolet']['index'])`. -/
def current_weather (now : String) (result_realtime : RealtimeResult) : Weather :=
  ⟨now, .CURRENT, caiyun_get_day result_realtime.skycon,
   result_realtime.temperature, result_realtime.humidity,
   result_realtime.pressure / 100, pyInt result_realtime.ultraviolet_index⟩

/-- `CaiYunWeatherProvider.invalidate`: raise on a non-OK response,
decode the payload, build the realtime record, parse the hourly and
daily series, and return `[current] ++ hourly ++ daily`. -/
def CaiYunWeatherProvider.invalidate (now : String) (response : ApiResponse) :
    Except CaiYunError (List Weather) :=
  if response.ok = false then .error .upstreamUnavailable
  else
    match response.body with
    | .error e => .error e
    | .ok api_callback =>
      match parse api_callback.hourly .HOURLY with
      | .error e => .error e
      | .ok hourly_weather =>
        match parse api_callback.daily .DAILY with
        | .error e => .error e
        | .ok daily_weather =>
          .ok ([current_weather now api_callback.realtime]
                ++ hourly_weather ++ daily_weather)

/-- The `CaiYunWeatherProvider` constructor state: the base provider
fields set by `super().__init__(location, TemperatureUnit.CELSIUS,
cache_invalidate_interval)` plus the stored `api_key`. -/
structure CaiYunWeatherProvider where
  base : WeatherProvider
  cache_invalidation : ℚ
  api_key : String
deriving DecidableEq

/-- `CaiYunWeatherProvider.__init__`: the temperature unit passed to the
base constructor is always `CELSIUS`, whatever the caller supplies. -/
def CaiYunWeatherProvider.init (location : Location) (api_key : String)
    (cache_invalidate_interval : ℚ := 3600) : CaiYunWeatherProvider :=
  ⟨⟨location, TemperatureUnit.CELSIUS⟩, cache_invalidate_interval, api_key⟩

/-- `get_temperature_unit` inherited from `WeatherProvider`. -/
def CaiYunWeatherProvider.get_temperature_unit (p : CaiYunWeatherProvider) :
    TemperatureUnit :=
  p.base.get_temperature_unit

/-- Modelled from the spec: the "nearest integer" reading of the UV
parse step ("uv_index parsed as the nearest integer of a nested life
index field"), to be compared with the source's `int(...)` truncation. -/
def spec_nearestInt (q : ℚ) : ℤ :=
  round q

/-- Sample record: a plausible CURRENT observation. -/
def wA : Weather :=
  ⟨"2024-01-01T00:00", .CURRENT, .CLEAR, 20, 1/2, 1000, 5⟩

/-- Sample record differing from `wA` only in its temperature. -/
def wB : Weather :=
  ⟨"2024-01-01T00:00", .CURRENT, .CLEAR, 21, 1/2, 1000, 5⟩

/-- Cached state: TTL `10`, last fetch at time `0`, cache `[wA]`. -/
def c2s0 : CachedState :=
  ⟨10, some 0, some [wA]⟩

/-- Sample realtime section: pressure `101325` Pa and an ultraviolet
index of `11.7`. -/
def rtX : RealtimeResult :=
  ⟨25, "CLEAR_DAY", 1/2, 101325, 117/10⟩

/-- Hourly/daily section with no entries (all five arrays empty). -/
def emptySeries : SeriesPayload :=
  ⟨[], [], [], [], []⟩

/-- Sample decoded payload: realtime `rtX`, empty hourly and daily. -/
def bodyX : ApiBody :=
  ⟨rtX, emptySeries, emptySeries⟩

/-- Sample successful response carrying `bodyX`. -/
def respX : ApiResponse :=
  ⟨true, .ok bodyX⟩

/-- The CURRENT record `invalidate` builds from `rtX` at time `"t"`. -/
def cwX : Weather :=
  current_weather "t" rtX

theorem invalidate_respX : CaiYunWeatherProvider.invalidate "t" respX = .ok [cwX] :=
  rfl

theorem cwX_uv : cwX.uv_index = 11 := by
  simp only [cwX, current_weather, rtX, pyInt]
  rw [if_pos (by norm_num)]
  norm_num

theorem cwX_pressure : cwX.pressure = 1013.25 := by
  simp only [cwX, current_weather, rtX]
  norm_num

theorem parseAt_ok_fields (source : SeriesPayload) (effect : WeatherEffectiveness)
    (i : ℕ) (w : Weather) (h : parseAt source effect i = .ok w) :
    w.effect = effect ∧ w.uv_index = -1 := by
  unfold parseAt at h
  repeat any_goals split at h
  all_goals first
    | (injection h with h; subst h; exact ⟨rfl, rfl⟩)
    | exact absurd h (by simp)

theorem exceptSeq_ok_mem (f : ℕ → Except CaiYunError Weather) (l : List ℕ)
    (ws : List Weather) (h : exceptSeq f l = .ok ws) :
    ∀ w ∈ ws, ∃ i ∈ l, f i = .ok w := by
  induction l generalizing ws with
  | nil =>
    intro w hw
    simp only [exceptSeq] at h
    injection h with h
    subst h
    simp at hw
  | cons i is ih =>
    intro w hw
    simp only [exceptSeq] at h
    cases hf : f i with
    | error e => rw [hf] at h; exact absurd h (by simp)
    | ok w0 =>
      rw [hf] at h
      cases hrec : exceptSeq f is with
      | error e => rw [hrec] at h; exact absurd h (by simp)
      | ok ws0 =>
        rw [hrec] at h
        injection h with h
        subst h
        rcases List.mem_cons.mp hw with hw | hw
        · exact ⟨i, List.mem_cons_self i is, by rw [← hw] at hf; exact hf⟩
        · obtain ⟨j, hj, hfj⟩ := ih ws0 hrec w hw
          exact ⟨j, List.mem_cons_of_mem i hj, hfj⟩

theorem parse_ok_mem (source : SeriesPayload) (effect : WeatherEffectiveness)
    (ws : List Weather) (h : parse source effect = .ok ws) :
    ∀ w ∈ ws, w.effect = effect ∧ w.uv_index = -1 := by
  intro w hw
  obtain ⟨i, _, hfi⟩ := exceptSeq_ok_mem _ _ _ h w hw
  exact parseAt_ok_fields source effect i w hfi

theorem invalidate_ok_decomp (now : String) (response : ApiResponse)
    (ws : List Weather) (h : CaiYunWeatherProvider.invalidate now response = .ok ws) :
    ∃ api_callback hourly_weather daily_weather,
      response.ok = true ∧ response.body = .ok api_callback ∧
      parse api_callback.hourly .HOURLY = .ok hourly_weather ∧
      parse api_callback.daily .DAILY = .ok daily_weather ∧
      ws = current_weather now api_callback.realtime
            :: (hourly_weather ++ daily_weather) := by
  unfold CaiYunWeatherProvider.invalidate at h
  cases hok : response.ok with
  | false => rw [hok] at h; simp at h
  | true =>
    rw [hok] at h
    rw [if_neg (by simp)] at h
    cases hbody : response.body with
    | error e => rw [hbody] at h; exact absurd h (by simp)
    | ok cb =>
      rw [hbody] at h
      dsimp only at h
      cases hh : parse cb.hourly .HOURLY with
      | error e => rw [hh] at h; exact absurd h (by simp)
      | ok hw =>
        rw [hh] at h
        cases hd : parse cb.daily .DAILY with
        | error e => rw [hd] at h; exact absurd h (by simp)
        | ok dw =>
          rw [hd] at h
          injection h with h
          exact ⟨cb, hw, dw, rfl, rfl, hh, hd, by rw [← h]; simp⟩

/-- C1 (counterexample): at the concrete state with TTL `10`, no prior
fetch and empty cache, a `get_weather` call at time `5` whose refresh
hook fails does propagate the failure — but it changes the stored
last-fetch timestamp from `none` to `some 5`, so the claim that
"neither the stored last-fetch timestamp nor the cached result sequence
changes" is false on the code: the source stores
`self.__update_time = time.time()` before calling `self.invalidate()`. -/
theorem c1_counterexample :
    (CachedWeatherProvider.get_weather ⟨10, none, none⟩ 5
        (.error .upstreamUnavailable)).result = .error .upstreamUnavailable ∧
    (⟨10, none, none⟩ : CachedState).update_time = none ∧
    (CachedWeatherProvider.get_weather ⟨10, none, none⟩ 5
        (.error .upstreamUnavailable)).state.update_time = some 5 ∧
    (⟨10, none, none⟩ : CachedState).cache = none ∧
    (CachedWeatherProvider.get_weather ⟨10, none, none⟩ 5
        (.error .upstreamUnavailable)).state.cache = none ∧
    some (5 : ℚ) ≠ none :=
  ⟨rfl, rfl, rfl, rfl, rfl, by simp⟩

/-- C1 (amended): if the refresh hook fails during a `get_weather` call
that misses the cache, the failure propagates to the caller and the
cached result sequence is unchanged, but the stored last-fetch
timestamp is updated to the attempt time (it is written before the
refresh hook is invoked). -/
theorem c1_failed_refresh_amended (s : CachedState) (now : ℚ) (e : CaiYunError)
    (hmiss : ∀ t, s.update_time = some t → s.cache_invalidation ≤ now - t) :
    (CachedWeatherProvider.get_weather s now (.error e)).result = .error e ∧
    (CachedWeatherProvider.get_weather s now (.error e)).state.cache = s.cache ∧
    (CachedWeatherProvider.get_weather s now (.error e)).state.update_time = some now ∧
    (CachedWeatherProvider.get_weather s now (.error e)).upstream_calls = 1 := by
  cases hu : s.update_time with
  | none =>
    simp [CachedWeatherProvider.get_weather, hu, CachedWeatherProvider.fetch]
  | some t =>
    have hle := not_lt.mpr (hmiss t hu)
    simp [CachedWeatherProvider.get_weather, hu, hle, CachedWeatherProvider.fetch]

/-- C1 (witness): the amended theorem applied at a concrete miss. -/
theorem c1_failed_refresh_witness :
    (CachedWeatherProvider.get_weather ⟨10, some 0, some [wA]⟩ 12
        (.error .malformedMetric)).result = .error .malformedMetric ∧
    (CachedWeatherProvider.get_weather ⟨10, some 0, some [wA]⟩ 12
        (.error .malformedMetric)).state.cache = (⟨10, some 0, some [wA]⟩ : CachedState).cache ∧
    (CachedWeatherProvider.get_weather ⟨10, some 0, some [wA]⟩ 12
        (.error .malformedMetric)).state.update_time = some 12 ∧
    (CachedWeatherProvider.get_weather ⟨10, some 0, some [wA]⟩ 12
        (.error .malformedMetric)).upstream_calls = 1 :=
  c1_failed_refresh_amended ⟨10, some 0, some [wA]⟩ 12 .malformedMetric
    (by intro t ht; injection ht with ht; subst ht; norm_num)

/-- C2 (counterexample): with TTL `10`, last successful fetch at time
`0` and cache `[wA]`, a call at time `5` serves `[wA]` from the cache
and a call at time `12` — only `7 < 10` seconds later, with no failed
refresh anywhere — refetches and serves `[wB]`: two calls separated by
fewer than TTL seconds with no intervening failed refresh returned
different results, so the "identical results" part of the claim is
false on the code. -/
theorem c2_counterexample :
    (12 : ℚ) - 5 < 10 ∧
    CachedWeatherProvider.get_weather c2s0 5 (.ok [wB])
      = ⟨.ok (some [wA]), c2s0, 0⟩ ∧
    CachedWeatherProvider.get_weather
        (CachedWeatherProvider.get_weather c2s0 5 (.ok [wB])).state 12 (.ok [wB])
      = ⟨.ok (some [wB]), ⟨10, some 12, some [wB]⟩, 1⟩ ∧
    (Except.ok (some [wA]) : Except CaiYunError (Option (List Weather)))
      ≠ .ok (some [wB]) := by
  refine ⟨by norm_num, ?_, ?_, ?_⟩
  · norm_num [CachedWeatherProvider.get_weather, c2s0]
  · norm_num [CachedWeatherProvider.get_weather, CachedWeatherProvider.fetch, c2s0]
  · norm_num [wA, wB]

/-- C2 (amended): for a cached provider with TTL `T`: (1) if the last
fetch timestamp is set and fewer than `T` seconds have elapsed,
`get_weather` returns the cached result unchanged, with no state change
and no refresh-hook call; (2) hence when one call performs a successful
fetch and the next call comes fewer than `T` seconds after it, the two
calls return identical results with exactly one upstream call in total
(the "identical results" guarantee holds for calls within `T` seconds
of the last fetch, not for arbitrary call pairs fewer than `T` seconds
apart); and (3) a call at least `T` seconds after the last stored fetch
timestamp triggers exactly one new upstream call. -/
theorem c2_cache_ttl_amended :
    (∀ (s : CachedState) (t now : ℚ) (refreshed : Except CaiYunError (List Weather)),
      s.update_time = some t → now - t < s.cache_invalidation →
      CachedWeatherProvider.get_weather s now refreshed = ⟨.ok s.cache, s, 0⟩) ∧
    (∀ (s : CachedState) (t1 t2 : ℚ) (new_data : List Weather)
        (refreshed2 : Except CaiYunError (List Weather)),
      (∀ t, s.update_time = some t → s.cache_invalidation ≤ t1 - t) →
      t2 - t1 < s.cache_invalidation →
      (CachedWeatherProvider.get_weather s t1 (.ok new_data)).result
          = .ok (some new_data) ∧
      (CachedWeatherProvider.get_weather s t1 (.ok new_data)).upstream_calls = 1 ∧
      CachedWeatherProvider.get_weather
          (CachedWeatherProvider.get_weather s t1 (.ok new_data)).state t2 refreshed2
        = ⟨.ok (some new_data),
           (CachedWeatherProvider.get_weather s t1 (.ok new_data)).state, 0⟩) ∧
    (∀ (s : CachedState) (t now : ℚ) (refreshed : Except CaiYunError (List Weather)),
      s.update_time = some t → s.cache_invalidation ≤ now - t →
      (CachedWeatherProvider.get_weather s now refreshed).upstream_calls = 1) := by
  refine ⟨?_, ?_, ?_⟩
  · intro s t now refreshed hupd hlt
    simp [CachedWeatherProvider.get_weather, hupd, hlt]
  · intro s t1 t2 new_data refreshed2 hmiss hlt
    have hfetch : CachedWeatherProvider.get_weather s t1 (.ok new_data)
        = ⟨.ok (some new_data),
           { s with update_time := some t1, cache := some new_data }, 1⟩ := by
      cases hu : s.update_time with
      | none =>
        simp [CachedWeatherProvider.get_weather, hu, CachedWeatherProvider.fetch]
      | some t =>
        have hle := not_lt.mpr (hmiss t hu)
        simp [CachedWeatherProvider.get_weather, hu, hle, CachedWeatherProvider.fetch]
    rw [hfetch]
    refine ⟨rfl, rfl, ?_⟩
    simp [CachedWeatherProvider.get_weather, hlt]
  · intro s t now refreshed hupd hge
    have hle := not_lt.mpr hge
    cases refreshed with
    | error e =>
      simp [CachedWeatherProvider.get_weather, hupd, hle, CachedWeatherProvider.fetch]
    | ok new_data =>
      simp [CachedWeatherProvider.get_weather, hupd, hle, CachedWeatherProvider.fetch]

/-- C2 (witness): the amended theorem applied at concrete states: a hit
at time `5` on a cache fetched at time `0` with TTL `10`, and a
fetch-then-hit pair at times `0` and `1` starting from an empty state. -/
theorem c2_cache_ttl_witness :
    CachedWeatherProvider.get_weather c2s0 5 (.ok [wB]) = ⟨.ok (some [wA]), c2s0, 0⟩ ∧
    (CachedWeatherProvider.get_weather ⟨10, none, none⟩ 0 (.ok [wB])).result
      = .ok (some [wB]) ∧
    (CachedWeatherProvider.get_weather ⟨10, none, none⟩ 5 (.ok [wB])).upstream_calls = 1 := by
  refine ⟨?_, ?_, ?_⟩
  · have h := c2_cache_ttl_amended.1 c2s0 0 5 (.ok [wB]) rfl (by norm_num [c2s0])
    simpa [c2s0] using h
  · exact (c2_cache_ttl_amended.2.1 ⟨10, none, none⟩ 0 1 [wB] (.ok [wB])
      (by intro t ht; exact absurd ht (by simp)) (by norm_num)).1
  · exact (c2_cache_ttl_amended.2.1 ⟨10, none, none⟩ 5 6 [wB] (.ok [wB])
      (by intro t ht; exact absurd ht (by simp)) (by norm_num)).2.1

/-- C3: the sky-condition classifier lower-cases its input and first
matches by substring (any code containing "clear" maps to CLEAR; else
containing "cloudy" maps to CLOUDY; else containing "haze" maps to
HAZY) before the exact-match chain for the finer codes; any string
matching none of the branches maps to UNKNOWN. The embedding is a total
function, so classification never fails and the same input always
yields the same `Day`; the spec's three end-to-end examples are
included as closing conjuncts. -/
theorem c3_classification :
    (∀ raw : String, strContainsSub (lowerStr raw) "clear" = true →
      caiyun_get_day raw = Day.CLEAR) ∧
    (∀ raw : String, strContainsSub (lowerStr raw) "clear" = false →
      strContainsSub (lowerStr raw) "cloudy" = true →
      caiyun_get_day raw = Day.CLOUDY) ∧
    (∀ raw : String, strContainsSub (lowerStr raw) "clear" = false →
      strContainsSub (lowerStr raw) "cloudy" = false →
      strContainsSub (lowerStr raw) "haze" = true →
      caiyun_get_day raw = Day.HAZY) ∧
    (∀ raw : String, lowerStr raw = "light_rain" →
      caiyun_get_day raw = Day.LIGHTLY_RAINY) ∧
    (∀ raw : String, lowerStr raw = "moderate_rain" →
      caiyun_get_day raw = Day.RAINY) ∧
    (∀ raw : String, lowerStr raw = "heavy_rain" ∨ lowerStr raw = "storm_rain" →
      caiyun_get_day raw = Day.HEAVILY_RAINY) ∧
    (∀ raw : String, lowerStr raw = "fog" → caiyun_get_day raw = Day.FOGGY) ∧
    (∀ raw : String, lowerStr raw = "light_snow" →
      caiyun_get_day raw = Day.LIGHTLY_SNOWY) ∧
    (∀ raw : String, lowerStr raw = "moderate_snow" →
      caiyun_get_day raw = Day.SNOWY) ∧
    (∀ raw : String, lowerStr raw = "heavy_snow" ∨ lowerStr raw = "storm_snow" →
      caiyun_get_day raw = Day.HEAVILY_SNOWY) ∧
    (∀ raw : String, lowerStr raw = "dust" → caiyun_get_day raw = Day.DUSTY) ∧
    (∀ raw : String, lowerStr raw = "sand" → caiyun_get_day raw = Day.SANDY) ∧
    (∀ raw : String, lowerStr raw = "wind" → caiyun_get_day raw = Day.WINDY) ∧
    (∀ raw : String, strContainsSub (lowerStr raw) "clear" = false →
      strContainsSub (lowerStr raw) "cloudy" = false →
      strContainsSub (lowerStr raw) "haze" = false →
      lowerStr raw ∉ (["light_rain", "moderate_rain", "heavy_rain", "storm_rain",
        "fog", "light_snow", "moderate_snow", "heavy_snow", "storm_snow", "dust",
        "sand", "wind"] : List String) →
      caiyun_get_day raw = Day.UNKNOWN) ∧
    caiyun_get_day "CLOUDY" = Day.CLOUDY ∧
    caiyun_get_day "light_rain" = Day.LIGHTLY_RAINY ∧
    caiyun_get_day "thundersnow" = Day.UNKNOWN := by
  refine ⟨?_, ?_, ?_, ?_, ?_, ?_, ?_, ?_, ?_, ?_, ?_, ?_, ?_, ?_, by decide, by decide,
    by decide⟩
  · intro raw h
    simp [caiyun_get_day, caiyun_classify, h]
  · intro raw h1 h2
    simp [caiyun_get_day, caiyun_classify, h1, h2]
  · intro raw h1 h2 h3
    simp [caiyun_get_day, caiyun_classify, h1, h2, h3]
  · intro raw h
    unfold caiyun_get_day
    rw [h]
    decide
  · intro raw h
    unfold caiyun_get_day
    rw [h]
    decide
  · intro raw h
    unfold caiyun_get_day
    rcases h with h | h <;> rw [h] <;> decide
  · intro raw h
    unfold caiyun_get_day
    rw [h]
    decide
  · intro raw h
    unfold caiyun_get_day
    rw [h]
    decide
  · intro raw h
    unfold caiyun_get_day
    rw [h]
    decide
  · intro raw h
    unfold caiyun_get_day
    rcases h with h | h <;> rw [h] <;> decide
  · intro raw h
    unfold caiyun_get_day
    rw [h]
    decide
  · intro raw h
    unfold caiyun_get_day
    rw [h]
    decide
  · intro raw h
    unfold caiyun_get_day
    rw [h]
    decide
  · intro raw h1 h2 h3 h4
    simp only [List.mem_cons, List.not_mem_nil, or_false, not_or] at h4
    obtain ⟨n1, n2, n3, n4, n5, n6, n7, n8, n9, n10, n11, n12⟩ := h4
    simp [caiyun_get_day, caiyun_classify, h1, h2, h3,
      n1, n2, n3, n4, n5, n6, n7, n8, n9, n10, n11, n12]

/-- C3 (witness): the classifier theorem applied at concrete codes,
including provider naming variations caught by the substring branches. -/
theorem c3_classification_witness :
    caiyun_get_day "CLEAR_DAY" = Day.CLEAR ∧
    caiyun_get_day "PARTLY_CLOUDY_NIGHT" = Day.CLOUDY ∧
    caiyun_get_day "LIGHT_HAZE" = Day.HAZY ∧
    caiyun_get_day "STORM_SNOW" = Day.HEAVILY_SNOWY ∧
    caiyun_get_day "tornado" = Day.UNKNOWN :=
  ⟨c3_classification.1 "CLEAR_DAY" (by decide),
   c3_classification.2.1 "PARTLY_CLOUDY_NIGHT" (by decide) (by decide),
   c3_classification.2.2.1 "LIGHT_HAZE" (by decide) (by decide) (by decide),
   c3_classification.2.2.2.2.2.2.2.2.2.1 "STORM_SNOW" (Or.inr (by decide)),
   c3_classification.2.2.2.2.2.2.2.2.2.2.2.2.2.1 "tornado" (by decide) (by decide)
     (by decide) (by decide)⟩

/-- C4 (counterexample): for the concrete payload whose nested
life-index ultraviolet field is `11.7`, the CURRENT record built by the
provider's refresh has `uv_index = 11` (Python `int(...)` truncates
toward zero), while the nearest integer of the payload field is `12`
and `11` is outside `[0, 10]`: both the "nearest integer" and the
"lying in the range [0,10]" parts of the claim are false on the code. -/
theorem c4_counterexample :
    CaiYunWeatherProvider.invalidate "t" respX = .ok [cwX] ∧
    cwX.effect = WeatherEffectiveness.CURRENT ∧
    cwX.uv_index = 11 ∧
    spec_nearestInt rtX.ultraviolet_index = 12 ∧
    (11 : ℤ) ≠ 12 ∧ ¬((11 : ℤ) ≤ 10) := by
  refine ⟨invalidate_respX, rfl, cwX_uv, ?_, by decide, by decide⟩
  simp only [spec_nearestInt, rtX]
  norm_num [round_eq]

/-- C4 (amended): in the sequence produced by a successful refresh of
the concrete remote provider, every HOURLY and every DAILY record has
the sentinel `uv_index = -1`, and every CURRENT record has `uv_index`
equal to the payload's nested life-index ultraviolet field truncated
toward zero (Python `int(...)`); that value lies in `[0, 10]` whenever
the payload field lies in `[0, 11)` (the code applies no clamping). -/
theorem c4_uv_index_amended (now : String) (response : ApiResponse)
    (api_callback : ApiBody) (ws : List Weather)
    (hbody : response.body = .ok api_callback)
    (hinv : CaiYunWeatherProvider.invalidate now response = .ok ws) :
    (∀ w ∈ ws, w.effect = .HOURLY ∨ w.effect = .DAILY → w.uv_index = -1) ∧
    (∀ w ∈ ws, w.effect = .CURRENT →
      w.uv_index = pyInt api_callback.realtime.ultraviolet_index) ∧
    (0 ≤ api_callback.realtime.ultraviolet_index →
      api_callback.realtime.ultraviolet_index < 11 →
      ∀ w ∈ ws, w.effect = .CURRENT → 0 ≤ w.uv_index ∧ w.uv_index ≤ 10) := by
  obtain ⟨cb, hwl, dwl, hok, hbody2, hh, hd, hshape⟩ :=
    invalidate_ok_decomp now response ws hinv
  rw [hbody] at hbody2
  injection hbody2 with hcb
  subst hcb
  subst hshape
  have hmem2 : ∀ w ∈ (current_weather now api_callback.realtime :: (hwl ++ dwl)),
      w.effect = .CURRENT →
      w.uv_index = pyInt api_callback.realtime.ultraviolet_index := by
    intro w hwmem heff
    rcases List.mem_cons.mp hwmem with hwc | hwm
    · subst hwc; rfl
    · rcases List.mem_append.mp hwm with hwm | hwm
      · have hef := (parse_ok_mem _ _ _ hh w hwm).1
        rw [heff] at hef
        exact absurd hef (by simp)
      · have hef := (parse_ok_mem _ _ _ hd w hwm).1
        rw [heff] at hef
        exact absurd hef (by simp)
  refine ⟨?_, hmem2, ?_⟩
  · intro w hwmem heff
    rcases List.mem_cons.mp hwmem with hwc | hwm
    · subst hwc
      simp [current_weather] at heff
    · rcases List.mem_append.mp hwm with hwm | hwm
      · exact (parse_ok_mem _ _ _ hh w hwm).2
      · exact (parse_ok_mem _ _ _ hd w hwm).2
  · intro h0 h11 w hwmem heff
    rw [hmem2 w hwmem heff]
    unfold pyInt
    rw [if_pos h0]
    constructor
    · exact Int.le_floor.mpr (by exact_mod_cast h0)
    · have hfl : ⌊api_callback.realtime.ultraviolet_index⌋ < 11 :=
        Int.floor_lt.mpr (by exact_mod_cast h11)
      omega

/-- C4 (witness): the amended theorem applied to the concrete response
`respX`: the CURRENT record carries the truncated ultraviolet index. -/
theorem c4_uv_index_witness :
    cwX.uv_index = pyInt rtX.ultraviolet_index :=
  (c4_uv_index_amended "t" respX bodyX [cwX] rfl invalidate_respX).2.1 cwX
    (by simp) rfl

/-- C5: `pick` returns the `value` field when the key is present,
otherwise falls back to the `avg` field, and fails with the metric
parse error when neither key is present; in particular `{"avg": 5}`
parses to `5` and `{}` raises. -/
theorem c5_metric_fallback :
    (∀ (unit : Entry ℚ) (v : ℚ), unit.value = some v → pick unit = .ok v) ∧
    (∀ (unit : Entry ℚ) (a : ℚ), unit.value = none → unit.avg = some a →
      pick unit = .ok a) ∧
    (∀ unit : Entry ℚ, unit.value = none → unit.avg = none →
      pick unit = .error .malformedMetric) ∧
    pick (⟨none, some 5⟩ : Entry ℚ) = .ok 5 ∧
    pick (⟨none, none⟩ : Entry ℚ) = .error .malformedMetric := by
  refine ⟨?_, ?_, ?_, rfl, rfl⟩
  · intro unit v h
    simp [pick, h]
  · intro unit a h1 h2
    simp [pick, h1, h2]
  · intro unit h1 h2
    simp [pick, h1, h2]

/-- C5 (witness): `pick` applied through the theorem at concrete
entries: an avg-only entry and an entry carrying both keys. -/
theorem c5_metric_fallback_witness :
    pick (⟨none, some 7⟩ : Entry ℚ) = .ok 7 ∧
    pick (⟨some 3, some 7⟩ : Entry ℚ) = .ok 3 :=
  ⟨c5_metric_fallback.2.1 ⟨none, some 7⟩ 7 rfl rfl,
   c5_metric_fallback.1 ⟨some 3, some 7⟩ 3 rfl⟩

/-- C6: every successful refresh of the concrete remote provider
returns the concatenation of the single CURRENT record, then all HOURLY
records, then all DAILY records, in that order. -/
theorem c6_order (now : String) (response : ApiResponse) (ws : List Weather)
    (hinv : CaiYunWeatherProvider.invalidate now response = .ok ws) :
    ∃ cur hourly_weather daily_weather,
      ws = [cur] ++ hourly_weather ++ daily_weather ∧
      cur.effect = .CURRENT ∧
      (∀ w ∈ hourly_weather, w.effect = .HOURLY) ∧
      (∀ w ∈ daily_weather, w.effect = .DAILY) := by
  obtain ⟨cb, hwl, dwl, _, _, hh, hd, hshape⟩ :=
    invalidate_ok_decomp now response ws hinv
  exact ⟨current_weather now cb.realtime, hwl, dwl, by rw [hshape]; simp, rfl,
    fun w hw => (parse_ok_mem _ _ _ hh w hw).1,
    fun w hw => (parse_ok_mem _ _ _ hd w hw).1⟩

/-- C6 (witness): the ordering theorem applied at the concrete
successful response `respX`. -/
theorem c6_order_witness :
    ∃ cur hourly_weather daily_weather,
      [cwX] = [cur] ++ hourly_weather ++ daily_weather ∧
      cur.effect = .CURRENT ∧
      (∀ w ∈ hourly_weather, w.effect = .HOURLY) ∧
      (∀ w ∈ daily_weather, w.effect = .DAILY) :=
  c6_order "t" respX [cwX] invalidate_respX

/-- C7: a non-OK upstream response makes the refresh fail with the
transport error before any parsing is attempted: the result is the
transport error for every body, even one that would itself fail to
parse, and no records are produced. -/
theorem c7_non_ok (now : String) (response : ApiResponse)
    (hok : response.ok = false) :
    CaiYunWeatherProvider.invalidate now response = .error .upstreamUnavailable := by
  unfold CaiYunWeatherProvider.invalidate
  rw [hok]
  simp

/-- C7 (witness): the theorem applied to a concrete non-OK response
whose body is itself a (different) decode error: the transport error
wins, showing the short-circuit happens before parsing. -/
theorem c7_non_ok_witness :
    CaiYunWeatherProvider.invalidate "t" ⟨false, .error .malformedPayload⟩
      = .error .upstreamUnavailable :=
  c7_non_ok "t" ⟨false, .error .malformedPayload⟩ rfl

/-- C8: the CURRENT record's pressure is the realtime payload pressure
divided by 100 (Pa to hPa); in particular a payload value of `101325`
yields a stored pressure of `1013.25`. -/
theorem c8_pressure (now : String) (response : ApiResponse)
    (api_callback : ApiBody) (ws : List Weather)
    (hbody : response.body = .ok api_callback)
    (hinv : CaiYunWeatherProvider.invalidate now response = .ok ws) :
    (∃ cur rest, ws = cur :: rest ∧ cur.effect = .CURRENT ∧
      cur.pressure = api_callback.realtime.pressure / 100) ∧
    (api_callback.realtime.pressure = 101325 →
      ∃ cur rest, ws = cur :: rest ∧ cur.pressure = 1013.25) := by
  obtain ⟨cb, hwl, dwl, _, hbody2, hh, hd, hshape⟩ :=
    invalidate_ok_decomp now response ws hinv
  rw [hbody] at hbody2
  injection hbody2 with hcb
  subst hcb
  refine ⟨⟨current_weather now api_callback.realtime, hwl ++ dwl, hshape, rfl, rfl⟩, ?_⟩
  intro hp
  refine ⟨current_weather now api_callback.realtime, hwl ++ dwl, hshape, ?_⟩
  norm_num [current_weather, hp]

/-- C8 (witness): the pressure theorem applied at the concrete response
`respX`, whose realtime pressure is `101325`. -/
theorem c8_pressure_witness :
    ∃ cur rest, [cwX] = cur :: rest ∧ cur.pressure = 1013.25 :=
  (c8_pressure "t" respX bodyX [cwX] rfl invalidate_respX).2 rfl

/-- C9: a Direct/Static provider constructed with a single record
returns, on every call, exactly the one-element sequence containing
that record: the call is a pure function of the constructed provider,
so any number `n` of repeated calls returns `n` copies of the same
one-element sequence, with no state to mutate and no refresh hook. -/
theorem c9_direct_provider (w : Weather) (location : Location) (n : ℕ) :
    (DirectWeatherProvider.init w location).get_weather = [w] ∧
    (List.range n).map (fun _ => (DirectWeatherProvider.init w location).get_weather)
      = List.replicate n [w] := by
  refine ⟨rfl, ?_⟩
  simp [DirectWeatherProvider.get_weather, DirectWeatherProvider.init,
    List.map_const']

/-- C10 (implicit): whatever location, API key and cache interval the
caller passes, the CaiYun provider's constructor forwards
`TemperatureUnit.CELSIUS` to the base constructor, so
`get_temperature_unit` always returns CELSIUS. -/
theorem c10_celsius (location : Location) (api_key : String)
    (cache_invalidate_interval : ℚ) :
    (CaiYunWeatherProvider.init location api_key
        cache_invalidate_interval).get_temperature_unit = TemperatureUnit.CELSIUS :=
  rfl

end Epui
